import Mathlib

/-!
Shallow embedding of the OCPP 1.6J CSMS core (repository eslatincsms-csms).

Source files embedded here:
  * src/app/main.py                        (unified handler `handle_ocpp_message`,
                                            `save_charger`, order helpers, default records)
  * src/csms/app/ocpp/handlers.py          (modular `OCPPHandler` start/stop handlers)
  * src/app/ocpp/transport_manager.py      (`TransportManager.send_message`)
  * src/app/ocpp/transport/mqtt_adapter.py (topic construction and routing)
  * src/app/utils/history_recorder.py      (`record_heartbeat`, `record_status_change`)

Modelling conventions: timestamps are rationals counting epoch seconds
(`datetime` arithmetic becomes subtraction); Python `round(x, 2)` becomes
`round2`; the Python dict payloads become a record of the optional fields the
handlers actually read, with JSON scalars as `JVal`; the Redis hash becomes an
association list with `hset`/`hget`; SQLAlchemy rows become lists of records,
with the surrogate primary key modelled as assigned at insertion time.
Persistence failure is a boolean parameter: `save_charger` in the source
catches every exception internally and never raises, so a failed write leaves
the store unchanged and control flow continues.
-/

namespace CSMS

/-- JSON scalar values as they appear in OCPP payload fields. -/
inductive JVal where
  | jnull
  | jint (n : Int)
  | jstr (s : String)
deriving DecidableEq, BEq

/-- Python truthiness of a JSON scalar (None, 0 and the empty string are falsy). -/
def JVal.truthy : JVal → Bool
  | .jnull => false
  | .jint n => n != 0
  | .jstr s => s != ""

/-- Rendering of a JSON scalar inside a Python f-string. -/
def JVal.render : JVal → String
  | .jnull => "None"
  | .jint n => toString n
  | .jstr s => s

/-- Embeds `payload.get("transactionId") or int(datetime.now().timestamp())`
(src/app/main.py line 250 and 1771, src/csms/app/ocpp/handlers.py line 102):
a falsy supplied value is replaced by the epoch-seconds clock value. -/
def pyOrTxId (v : Option JVal) (epoch : Int) : JVal :=
  match v with
  | some j => if j.truthy then j else .jint epoch
  | none => .jint epoch

/-- Python `round(x, 2)`: round to two decimal places. -/
def round2 (q : ℚ) : ℚ := (round (q * 100) : ℤ) / 100

/-- Python truthiness of an optional string. -/
def pyTruthyStrOpt : Option String → Bool
  | none => false
  | some s => s != ""

/-! ### Redis hash stores (src/app/main.py `redis_client.hset` / `hget`) -/

/-- A Redis hash: association list from field name to value, insertion ordered. -/
abbrev Store (α : Type) : Type := List (String × α)

/-- Writes field `k`, overwriting an existing entry (Redis HSET). -/
def hset {α : Type} : Store α → String → α → Store α
  | [], k, v => [(k, v)]
  | (k1, v1) :: rest, k, v =>
    if k1 == k then (k, v) :: rest else (k1, v1) :: hset rest k v

/-- Reads field `k` (Redis HGET). -/
def hget {α : Type} (s : Store α) (k : String) : Option α :=
  (List.find? (fun p => p.1 == k) s).map (fun p => p.2)

/-! ### Legacy in-memory data model (src/app/main.py) -/

/-- The per-charger session dict (`get_default_charger` in src/app/main.py). -/
structure Session where
  authorized : Bool
  transaction_id : Option JVal
  order_id : Option String
  meter : Int
deriving DecidableEq

/-- The charger dict stored in the Redis `chargers` hash (src/app/main.py). -/
structure ChargerRec where
  id : String
  vendor : Option String
  model : Option String
  firmware_version : Option String
  serial_number : Option String
  status : String
  last_seen : ℚ
  session : Session
  charging_rate : ℚ
  price_per_kwh : ℚ
deriving DecidableEq

/-- Embeds `get_default_charger` (src/app/main.py lines 390-412). -/
def get_default_charger (charger_id : String) (now : ℚ) : ChargerRec :=
  { id := charger_id
    vendor := none
    model := none
    firmware_version := none
    serial_number := none
    status := "Unknown"
    last_seen := now
    session := { authorized := false, transaction_id := none, order_id := none, meter := 0 }
    charging_rate := 7
    price_per_kwh := 2700 }

/-- The order dict written by `create_order` (src/app/main.py lines 540-563).
The dict has no cost field of any kind. -/
structure OrderRec where
  id : String
  charger_id : String
  user_id : String
  id_tag : String
  charging_rate : ℚ
  start_time : ℚ
  end_time : Option ℚ
  duration_minutes : Option ℚ
  energy_kwh : Option ℚ
  status : String
deriving DecidableEq

/-- Embeds `create_order` (src/app/main.py lines 540-563): inserts a fresh
ongoing order into the `orders` hash. -/
def create_order (orders : Store OrderRec) (order_id charger_id user_id id_tag : String)
    (charging_rate : ℚ) (start_time : ℚ) : Store OrderRec :=
  hset orders order_id
    { id := order_id
      charger_id := charger_id
      user_id := user_id
      id_tag := id_tag
      charging_rate := charging_rate
      start_time := start_time
      end_time := none
      duration_minutes := none
      energy_kwh := none
      status := "ongoing" }

/-- Embeds `update_order` (src/app/main.py lines 566-585): completes an order,
leaving the store unchanged when the order id is absent. -/
def update_order (orders : Store OrderRec) (order_id : String) (end_time : ℚ)
    (duration_minutes : ℚ) (energy_kwh : ℚ) : Store OrderRec :=
  match hget orders order_id with
  | none => orders
  | some o =>
    hset orders order_id
      { o with
        end_time := some end_time
        duration_minutes := some duration_minutes
        energy_kwh := some energy_kwh
        status := "completed" }

/-- Embeds `get_order` (src/app/main.py lines 588-593). -/
def get_order (orders : Store OrderRec) (order_id : String) : Option OrderRec :=
  hget orders order_id

/-- Embeds `save_charger` (src/app/main.py lines 455-473). The Python body
catches every exception from the Redis write and the database sync, so a
persistence failure leaves the store unchanged and never propagates. -/
def save_charger (persistFail : Bool) (chargers : Store ChargerRec) (c : ChargerRec) :
    Store ChargerRec :=
  if persistFail then chargers else hset chargers c.id c

/-! ### History recorder (src/app/utils/history_recorder.py) -/

/-- A row of `heartbeat_history` (src/app/database/models.py lines 223-244). -/
structure HeartbeatRec where
  charger_id : String
  timestamp : ℚ
  health_status : String
  interval_seconds : Option ℚ
deriving DecidableEq

/-- Embeds `record_heartbeat` (src/app/utils/history_recorder.py lines 15-60):
computes the interval from the previous heartbeat and the health band. -/
def record_heartbeat (charger_id : String) (previous_heartbeat_time : Option ℚ)
    (now : ℚ) : HeartbeatRec :=
  match previous_heartbeat_time with
  | none =>
    { charger_id := charger_id, timestamp := now
      health_status := "normal", interval_seconds := none }
  | some prev =>
    let interval_seconds := now - prev
    let health_status :=
      if interval_seconds ≤ 35 then "normal"
      else if interval_seconds ≤ 60 then "warning"
      else "abnormal"
    { charger_id := charger_id, timestamp := now
      health_status := health_status, interval_seconds := some interval_seconds }

/-- Embeds the database commit of a heartbeat row: the write is wrapped in a
try/except in the source, so a persistence failure drops the row silently. -/
def commit_heartbeat (persistFail : Bool) (rows : List HeartbeatRec) (hb : HeartbeatRec) :
    List HeartbeatRec :=
  if persistFail then rows else rows ++ [hb]

/-- A row of `status_history` (src/app/database/models.py lines 247-266). -/
structure StatusRec where
  charger_id : String
  status : String
  previous_status : String
  timestamp : ℚ
  duration_seconds : Option ℚ
deriving DecidableEq

/-- Embeds `record_status_change` (src/app/utils/history_recorder.py lines
63-107): appends a status row with the duration the previous status was held,
dropped silently on persistence failure. -/
def record_status_change (persistFail : Bool) (rows : List StatusRec)
    (charger_id new_status previous_status : String) (now : ℚ) : List StatusRec :=
  if persistFail then rows
  else
    let duration_seconds :=
      if previous_status != "" then
        (List.getLast? (rows.filter (fun r => r.charger_id == charger_id))).map
          (fun r => now - r.timestamp)
      else none
    rows ++ [{ charger_id := charger_id, status := new_status
               previous_status := previous_status, timestamp := now
               duration_seconds := duration_seconds }]

/-- Looks up the previous heartbeat time, embedding `get_last_heartbeat_time`
(src/app/utils/history_recorder.py lines 110-134): the latest row for the
charger, ordered by timestamp descending over the append-only stream. -/
def get_last_heartbeat_time (rows : List HeartbeatRec) (charger_id : String) : Option ℚ :=
  (List.getLast? (rows.filter (fun r => r.charger_id == charger_id))).map
    (fun r => r.timestamp)

/-! ### Inbound payloads -/

/-- One element of `meterValue[].sampledValue[]`. -/
structure SampledValue where
  measurand : Option String
  value : Option JVal
deriving DecidableEq

/-- One element of `meterValue[]`. -/
structure MeterEntry where
  sampledValue : List SampledValue
deriving DecidableEq

/-- The payload fields read by the handlers in src/app/main.py. -/
structure Payload where
  vendor : Option String
  model : Option String
  firmwareVersion : Option String
  serialNumber : Option String
  status : Option String
  idTag : Option String
  transactionId : Option JVal
  meterValue : List MeterEntry
deriving DecidableEq

/-- Embeds `int(float(energy_value))` on a JSON scalar; a value that fails to
parse raises ValueError in the source, which is caught and skips the update.
String values are parsed here as integer literals only; the source also
truncates fractional strings, an input family outside the theorems below. -/
def parseEnergyWh : JVal → Option Int
  | .jint n => some n
  | .jstr s => s.toInt?
  | .jnull => none

/-- Embeds the extraction in the MeterValues branch (src/app/main.py lines
276-299): first `meterValue` entry, first sampled value whose measurand is
`Energy.Active.Import.Register`, parsed as integer Wh. -/
def extractEnergyWh (payload : Payload) : Option Int :=
  match payload.meterValue.head? with
  | none => none
  | some entry =>
    match entry.sampledValue.find?
        (fun sv => sv.measurand == some "Energy.Active.Import.Register") with
    | none => none
    | some sv =>
      match sv.value with
      | none => none
      | some v => parseEnergyWh v

/-! ### Responses -/

/-- The response dict returned by each handler branch, one constructor per
distinct response shape of src/app/main.py `handle_ocpp_message`. -/
inductive Response where
  | boot (status : String) (currentTime : ℚ) (interval : Int)
  | heartbeat (currentTime : ℚ)
  | empty
  | authorize (idTagStatus : String)
  | start (transactionId : JVal) (idTagStatus : String)
  | stop (stopped : Bool) (transactionId : Option JVal) (idTagStatus : String)
  | dataTransfer (status : String)
  | unknownAction (action : String)
deriving DecidableEq

/-! ### The unified legacy handler (src/app/main.py `handle_ocpp_message`) -/

/-- The persistent state the unified handler touches: the Redis `chargers` and
`orders` hashes and the two append-only history tables. -/
structure LegacyState where
  chargers : Store ChargerRec
  orders : Store OrderRec
  heartbeats : List HeartbeatRec
  statusHistory : List StatusRec
deriving DecidableEq

/-- Result of one handler invocation. -/
structure HandlerResult where
  state : LegacyState
  response : Response
deriving DecidableEq

/-- Embeds `handle_ocpp_message` (src/app/main.py lines 170-351), the unified
OCPP handler installed on every transport. `persistFail` models a failing
persistence layer: every store write in the source is guarded by a broad
except and is skipped on failure, while the response is built regardless.
The in-memory `active_chargers` reporting cache (`update_active`) is omitted:
the handler never reads it, and its only store effect, clearing a stale
transaction on an Available transition, is subsumed by the branches below.
The load is a plain `hget`: the `migrate_charger_data` auto-repair applied
inside `load_chargers` only rewrites stored states that already violate the
session invariant (status Available with a live transaction) and is not
exercised by the runs below. -/
def handle_ocpp_message (persistFail : Bool) (st : LegacyState)
    (charger_id : String) (action : String) (payload : Payload) (now : ℚ) :
    HandlerResult :=
  let loaded := (hget st.chargers charger_id).getD (get_default_charger charger_id now)
  let charger0 := { loaded with last_seen := now }
  if action == "BootNotification" then
    let vendor := payload.vendor.getD ""
    let model := payload.model.getD ""
    let firmware_version := payload.firmwareVersion.getD ""
    let serial_number := payload.serialNumber.getD ""
    let c :=
      { charger0 with
        status := "Available"
        vendor := if vendor != "" then some vendor else charger0.vendor
        model := if model != "" then some model else charger0.model
        firmware_version :=
          if firmware_version != "" then some firmware_version else charger0.firmware_version
        serial_number :=
          if serial_number != "" then some serial_number else charger0.serial_number }
    { state := { st with chargers := save_charger persistFail st.chargers c }
      response := .boot "Accepted" now 30 }
  else if action == "Heartbeat" then
    let prev := get_last_heartbeat_time st.heartbeats charger_id
    let hb := record_heartbeat charger_id prev now
    { state :=
        { st with
          chargers := save_charger persistFail st.chargers charger0
          heartbeats := commit_heartbeat persistFail st.heartbeats hb }
      response := .heartbeat now }
  else if action == "StatusNotification" then
    let new_status := payload.status.getD "Unknown"
    let previous_status := charger0.status
    let session :=
      if new_status == "Available" && charger0.session.transaction_id.isSome then
        { charger0.session with transaction_id := none, order_id := none }
      else charger0.session
    let c := { charger0 with status := new_status, session := session }
    { state :=
        { st with
          chargers := save_charger persistFail st.chargers c
          statusHistory :=
            if previous_status != new_status then
              record_status_change persistFail st.statusHistory charger_id new_status
                previous_status now
            else st.statusHistory }
      response := .empty }
  else if action == "Authorize" then
    let id_tag := payload.idTag.getD ""
    let c := { charger0 with session := { charger0.session with authorized := id_tag != "" } }
    { state := { st with chargers := save_charger persistFail st.chargers c }
      response := .authorize (if id_tag != "" then "Accepted" else "Invalid") }
  else if action == "StartTransaction" then
    let tx_id := pyOrTxId payload.transactionId now.floor
    let id_tag := payload.idTag.getD ""
    let order_id := "order_" ++ tx_id.render
    let orders1 := create_order st.orders order_id charger_id id_tag id_tag
      charger0.charging_rate now
    let c :=
      { charger0 with
        status := "Charging"
        session :=
          { charger0.session with
            transaction_id := some tx_id, order_id := some order_id } }
    { state :=
        { st with
          orders := orders1
          chargers := save_charger persistFail st.chargers c }
      response := .start tx_id "Accepted" }
  else if action == "MeterValues" then
    { state :=
        match extractEnergyWh payload with
        | some meter_wh =>
          let c := { charger0 with session := { charger0.session with meter := meter_wh } }
          { st with chargers := save_charger persistFail st.chargers c }
        | none => st
      response := .empty }
  else if action == "StopTransaction" then
    let tx_id := charger0.session.transaction_id
    let order_id := charger0.session.order_id
    let orders1 :=
      if pyTruthyStrOpt order_id then
        match get_order st.orders (order_id.getD "") with
        | some o =>
          if o.status == "ongoing" then
            let duration_minutes := (now - o.start_time) / 60
            let energy_kwh := o.charging_rate * (duration_minutes / 60)
            update_order st.orders (order_id.getD "") now
              (round2 duration_minutes) (round2 energy_kwh)
          else st.orders
        | none => st.orders
      else st.orders
    let c :=
      { charger0 with
        status := "Available"
        session := { charger0.session with transaction_id := none, order_id := none } }
    { state :=
        { st with
          orders := orders1
          chargers := save_charger persistFail st.chargers c }
      response := .stop true tx_id "Accepted" }
  else if action == "FirmwareStatusNotification" || action == "DiagnosticsStatusNotification" then
    { state := { st with chargers := save_charger persistFail st.chargers charger0 }
      response := .empty }
  else if action == "DataTransfer" then
    { state := { st with chargers := save_charger persistFail st.chargers charger0 }
      response := .dataTransfer "Accepted" }
  else
    { state := st, response := .unknownAction action }

/-! ### Modular database model (src/csms/app/ocpp/handlers.py over
src/app/database/models.py) -/

/-- A row of the `chargers` table, restricted to the columns the handlers read
and write. A row created inside `handle_start_transaction` carries no rate or
price: the column defaults apply only at flush, after the attribute reads. -/
structure CCharger where
  id : String
  vendor : Option String
  model : Option String
  status : String
  last_seen : ℚ
  charging_rate : Option ℚ
  price_per_kwh : Option ℚ
deriving DecidableEq

/-- A row of the `transactions` table (src/app/database/models.py lines 54-96).
`id` is the surrogate primary key, modelled as assigned at insertion. -/
structure CTransaction where
  id : Nat
  charger_id : String
  transaction_id : JVal
  id_tag : String
  user_id : String
  start_time : ℚ
  end_time : Option ℚ
  energy_kwh : Option ℚ
  duration_minutes : Option ℚ
  charging_rate : Option ℚ
  price_per_kwh : Option ℚ
  total_cost : Option ℚ
  status : String
deriving DecidableEq

/-- A row of the `orders` table (src/app/database/models.py lines 142-175).
`transaction_pk` is the `transaction_id` foreign-key column referencing
`transactions.id`. -/
structure COrder where
  id : String
  transaction_pk : Option Nat
  charger_id : String
  user_id : String
  id_tag : String
  start_time : ℚ
  end_time : Option ℚ
  energy_kwh : Option ℚ
  duration_minutes : Option ℚ
  charging_rate : Option ℚ
  price_per_kwh : Option ℚ
  total_cost : Option ℚ
  status : String
deriving DecidableEq

/-- The relational state the modular handlers touch, with the next free
surrogate primary key for `transactions`. -/
structure CsmsDB where
  chargers : List CCharger
  transactions : List CTransaction
  orders : List COrder
  nextTxPk : Nat
deriving DecidableEq

/-- Rewrites the first list element satisfying `p`, leaving the rest alone:
the in-place mutation of the row returned by `.filter(...).first()`. -/
def replaceFirst {α : Type} (p : α → Bool) (f : α → α) : List α → List α
  | [] => []
  | x :: xs => if p x then f x :: xs else x :: replaceFirst p f xs

/-- Embeds `OCPPHandler.handle_start_transaction` (src/csms/app/ocpp/handlers.py
lines 100-152): allocates the transaction id, creates the charger row when
missing, inserts a Transaction and an Order row both `ongoing`, snapshots the
rate and price from the charger, and sets the charger `Charging`. No check of
any kind is made for an already ongoing transaction on the charger. The Order
constructor at line 130 reads `transaction.id` on the still pending row: the
session has autoflush disabled and nothing flushes between `db.add(transaction)`
and the read, so the attribute is still None and the stored foreign key of the
order is NULL, here `transaction_pk := none`. -/
def OCPPHandler.handle_start_transaction (db : CsmsDB) (charger_id : String)
    (transactionId : Option JVal) (idTag : String) (now : ℚ) : CsmsDB × Response :=
  let tx_id := pyOrTxId transactionId now.floor
  let found := db.chargers.find? (fun c => c.id == charger_id)
  let charger := found.getD
    { id := charger_id, vendor := none, model := none, status := "Charging"
      last_seen := now, charging_rate := none, price_per_kwh := none }
  let tx : CTransaction :=
    { id := db.nextTxPk
      charger_id := charger_id
      transaction_id := tx_id
      id_tag := idTag
      user_id := idTag
      start_time := now
      end_time := none
      energy_kwh := none
      duration_minutes := none
      charging_rate := charger.charging_rate
      price_per_kwh := charger.price_per_kwh
      total_cost := none
      status := "ongoing" }
  let ord : COrder :=
    { id := "order_" ++ tx_id.render
      transaction_pk := none
      charger_id := charger_id
      user_id := idTag
      id_tag := idTag
      start_time := now
      end_time := none
      energy_kwh := none
      duration_minutes := none
      charging_rate := charger.charging_rate
      price_per_kwh := charger.price_per_kwh
      total_cost := none
      status := "ongoing" }
  let finalCharger := { charger with status := "Charging", last_seen := now }
  let chargers1 :=
    match found with
    | some _ => replaceFirst (fun c => c.id == charger_id) (fun _ => finalCharger) db.chargers
    | none => db.chargers ++ [finalCharger]
  ({ chargers := chargers1
     transactions := db.transactions ++ [tx]
     orders := db.orders ++ [ord]
     nextTxPk := db.nextTxPk + 1 },
   .start tx_id "Accepted")

/-- Embeds `OCPPHandler.handle_stop_transaction` (src/csms/app/ocpp/handlers.py
lines 154-199): looks up the transaction by charger and supplied transaction
id (a missing id matches no row, as the SQL NULL comparison does), stamps the
end time and derived fields, completes the linked order, and sets the charger
Available. The transaction status is not inspected before updating, and
`total_cost` is never assigned. A `charging_rate` of 0 is falsy in the
`if transaction.charging_rate:` guard, so it skips the energy computation. -/
def OCPPHandler.handle_stop_transaction (db : CsmsDB) (charger_id : String)
    (transactionId : Option JVal) (now : ℚ) : CsmsDB × Response :=
  let db1 :=
    match transactionId with
    | none => db
    | some v =>
      match db.transactions.find?
          (fun t : CTransaction => t.charger_id == charger_id && t.transaction_id == v) with
      | none => db
      | some t =>
        let duration := (now - t.start_time) / 60
        let t1 :=
          { t with
            end_time := some now
            status := "completed"
            duration_minutes := some (round2 duration)
            energy_kwh :=
              match t.charging_rate with
              | some r => if r != 0 then some (round2 (r * (duration / 60))) else t.energy_kwh
              | none => t.energy_kwh }
        { db with
          transactions :=
            replaceFirst (fun x => x.charger_id == charger_id && x.transaction_id == v)
              (fun _ => t1) db.transactions
          orders :=
            replaceFirst (fun o => o.transaction_pk == some t.id)
              (fun o =>
                { o with
                  end_time := t1.end_time
                  duration_minutes := t1.duration_minutes
                  energy_kwh := t1.energy_kwh
                  status := "completed" })
              db.orders }
  let db2 :=
    { db1 with
      chargers :=
        replaceFirst (fun c => c.id == charger_id)
          (fun c => { c with status := "Available", last_seen := now }) db1.chargers }
  (db2, .stop true transactionId "Accepted")

/-! ### Transport manager (src/app/ocpp/transport_manager.py) -/

/-- The three carriers. -/
inductive TransportType where
  | mqtt
  | websocket
  | http
deriving DecidableEq

/-- A transport adapter, abstracted to its connectivity report; the send
itself is modelled as succeeding on the selected adapter. -/
structure Adapter where
  is_connected : String → Bool

/-- The manager state: which adapters were enabled at startup. -/
structure TMState where
  adapters : TransportType → Option Adapter

/-- Outcome of `send_message`: the adapter that carried the message, or the
final ConnectionError. -/
inductive SendResult where
  | sent (t : TransportType)
  | failed
deriving DecidableEq

/-- Whether the transport is enabled and reports the charger connected, the
combined check `transport_type in self.adapters` and `adapter.is_connected`. -/
def isConn (tm : TMState) (charger_id : String) (t : TransportType) : Bool :=
  match tm.adapters t with
  | some a => a.is_connected charger_id
  | none => false

/-- The fixed fallback priority of src/app/ocpp/transport_manager.py lines
138-142: MQTT, then WebSocket, then HTTP. -/
def transport_priority : List TransportType := [.mqtt, .websocket, .http]

/-- The loop over `transport_priority` (lines 144-152): first enabled adapter
reporting the charger connected. -/
def firstConnected (tm : TMState) (charger_id : String) :
    List TransportType → Option TransportType
  | [] => none
  | t :: ts => if isConn tm charger_id t then some t else firstConnected tm charger_id ts

/-- The automatic selection (lines 136-159): the priority loop, then the HTTP
queue-anyway fallback, then ConnectionError. -/
def TransportManager.send_auto (tm : TMState) (charger_id : String) : SendResult :=
  match firstConnected tm charger_id transport_priority with
  | some t => .sent t
  | none =>
    match tm.adapters .http with
    | some _ => .sent .http
    | none => .failed

/-- Embeds `TransportManager.send_message` (src/app/ocpp/transport_manager.py
lines 107-159): the preferred transport when enabled and connected, otherwise
the automatic selection. -/
def TransportManager.send_message (tm : TMState) (charger_id : String)
    (preferred_transport : Option TransportType) : SendResult :=
  match preferred_transport with
  | some p =>
    if isConn tm charger_id p then .sent p
    else TransportManager.send_auto tm charger_id
  | none => TransportManager.send_auto tm charger_id

/-- Modelled from the claim wording, for comparison with the source
translation: preferred transport if given, enabled and connected; otherwise
the first of pubsub, socket, pull whose connectivity check is true; otherwise
pull when enabled; otherwise failure. -/
def send_message_described (tm : TMState) (charger_id : String)
    (preferred_transport : Option TransportType) : SendResult :=
  let fallback :=
    match (transport_priority.filter (fun t => isConn tm charger_id t)).head? with
    | some t => SendResult.sent t
    | none =>
      if (tm.adapters .http).isSome then SendResult.sent .http else SendResult.failed
  match preferred_transport with
  | some p =>
    if (tm.adapters p).isSome && isConn tm charger_id p then .sent p else fallback
  | none => fallback

/-! ### MQTT adapter topics (src/app/ocpp/transport/mqtt_adapter.py) -/

/-- A publish call issued to the broker. -/
structure MQTTPublish where
  topic : String
  qos : Nat
deriving DecidableEq

/-- Embeds the publish of `MQTTAdapter.send_message` (src/app/ocpp/transport/
mqtt_adapter.py lines 144-180): a CSMS-initiated outbound message is published
with `request_topic = "ocpp/" + charger_id + "/requests"` at QoS 1. -/
def MQTTAdapter.send_message (charger_id : String) : MQTTPublish :=
  { topic := "ocpp/" ++ charger_id ++ "/requests", qos := 1 }

/-- Embeds the publish at the end of `MQTTAdapter._handle_message` (lines
121-138): the handler result for an inbound charger request is published on
the responses topic at QoS 1. -/
def MQTTAdapter.handle_message_publish (charger_id : String) : MQTTPublish :=
  { topic := "ocpp/" ++ charger_id ++ "/responses", qos := 1 }

/-- Splitting a character list at every slash, the semantics of the Python
`msg.topic.split("/")` used by `_on_message`. -/
def splitSegs : List Char → List (List Char)
  | [] => [[]]
  | c :: cs =>
    let r := splitSegs cs
    if c = '/' then [] :: r
    else
      match r with
      | s :: rest => (c :: s) :: rest
      | [] => [[c]]

/-- Embeds `msg.topic.split("/")` on the topic string. -/
def splitSlash (s : String) : List String :=
  (splitSegs s.toList).map (fun cs => String.mk cs)

/-- Embeds the topic routing of `MQTTAdapter._on_message` (lines 86-119): a
three-segment topic whose last segment is `requests` is dispatched as a
charger-to-CSMS request from the charger named by the middle segment; every
other topic is dropped. -/
def MQTTAdapter.on_message_route (topic : String) : Option String :=
  match splitSlash topic with
  | [_, charger_id, message_type] =>
    if message_type == "requests" then some charger_id else none
  | _ => none

/-! ### Concrete sample states used by the theorems below -/

/-- A payload with no field supplied. -/
def emptyPayload : Payload :=
  { vendor := none, model := none, firmwareVersion := none, serialNumber := none
    status := none, idTag := none, transactionId := none, meterValue := [] }

/-- A charger mid-charge: session holds live transaction 99 and order_99. -/
def c1Charger : ChargerRec :=
  { id := "CP001", vendor := none, model := none, firmware_version := none
    serial_number := none, status := "Charging", last_seen := 0
    session := { authorized := true, transaction_id := some (.jint 99)
                 order_id := some "order_99", meter := 0 }
    charging_rate := 7, price_per_kwh := 2700 }

/-- The ongoing order of transaction 99. -/
def c1Order99 : OrderRec :=
  { id := "order_99", charger_id := "CP001", user_id := "U42", id_tag := "U42"
    charging_rate := 7, start_time := 0, end_time := none, duration_minutes := none
    energy_kwh := none, status := "ongoing" }

/-- Legacy state with one charger mid-transaction and its single order. -/
def c1State : LegacyState :=
  { chargers := [("CP001", c1Charger)], orders := [("order_99", c1Order99)]
    heartbeats := [], statusHistory := [] }

/-- A second StartTransaction arriving during transaction 99. -/
def c1Payload : Payload :=
  { emptyPayload with transactionId := some (.jint 100), idTag := some "U42" }

/-- A charger row for the modular database. -/
def c1DbCharger : CCharger :=
  { id := "CP001", vendor := none, model := none, status := "Charging"
    last_seen := 0, charging_rate := some 7, price_per_kwh := some 2700 }

/-- An ongoing transaction row with protocol id 99. -/
def c1DbTx : CTransaction :=
  { id := 1, charger_id := "CP001", transaction_id := .jint 99, id_tag := "U42", user_id := "U42"
    start_time := 0, end_time := none, energy_kwh := none, duration_minutes := none
    charging_rate := some 7, price_per_kwh := some 2700, total_cost := none, status := "ongoing" }

/-- Modular database with one ongoing transaction on CP001. -/
def c1Db : CsmsDB :=
  { chargers := [c1DbCharger], transactions := [c1DbTx], orders := [], nextTxPk := 2 }

/-- Legacy charger mid-transaction 99, for the stop-derivation runs. -/
def c2Charger : ChargerRec :=
  { id := "CP001", vendor := none, model := none, firmware_version := none
    serial_number := none, status := "Charging", last_seen := 0
    session := { authorized := true, transaction_id := some (.jint 99)
                 order_id := some "order_99", meter := 0 }
    charging_rate := 7, price_per_kwh := 2700 }

/-- The legacy ongoing order of transaction 99, started at time 0. -/
def c2LegacyOrder : OrderRec :=
  { id := "order_99", charger_id := "CP001", user_id := "U42", id_tag := "U42"
    charging_rate := 7, start_time := 0, end_time := none, duration_minutes := none
    energy_kwh := none, status := "ongoing" }

/-- Legacy state for the stop-derivation runs. -/
def c2State : LegacyState :=
  { chargers := [("CP001", c2Charger)], orders := [("order_99", c2LegacyOrder)]
    heartbeats := [], statusHistory := [] }

/-- Modular charger row with rate 7 kW and tariff 2700. -/
def c2CCharger : CCharger :=
  { id := "CP001", vendor := none, model := none, status := "Charging"
    last_seen := 0, charging_rate := some 7, price_per_kwh := some 2700 }

/-- Ongoing modular transaction 99, started at time 0. -/
def c2Tx : CTransaction :=
  { id := 1, charger_id := "CP001", transaction_id := .jint 99, id_tag := "U42", user_id := "U42"
    start_time := 0, end_time := none, energy_kwh := none, duration_minutes := none
    charging_rate := some 7, price_per_kwh := some 2700, total_cost := none, status := "ongoing" }

/-- The order row linked to the transaction with surrogate key 1. -/
def c2COrder : COrder :=
  { id := "order_99", transaction_pk := some 1, charger_id := "CP001", user_id := "U42"
    id_tag := "U42", start_time := 0, end_time := none, energy_kwh := none
    duration_minutes := none, charging_rate := some 7, price_per_kwh := some 2700
    total_cost := none, status := "ongoing" }

/-- Modular database holding the ongoing transaction 99 and its order. -/
def c2Db : CsmsDB :=
  { chargers := [c2CCharger], transactions := [c2Tx], orders := [c2COrder], nextTxPk := 2 }

/-- Modular database with a registered charger and no transaction yet. -/
def c2Db0 : CsmsDB :=
  { chargers := [c2CCharger], transactions := [], orders := [], nextTxPk := 1 }

/-- A full round trip: StartTransaction at time 0, StopTransaction at 120 s. -/
def c2Start : CsmsDB :=
  (OCPPHandler.handle_start_transaction c2Db0 "CP001" (some (.jint 1)) "U42" 0).1

/-- The transaction row that the StartTransaction at time 0 inserts. -/
def c2StartTx : CTransaction :=
  { id := 1, charger_id := "CP001", transaction_id := .jint 1, id_tag := "U42", user_id := "U42"
    start_time := 0, end_time := none, energy_kwh := none, duration_minutes := none
    charging_rate := some 7, price_per_kwh := some 2700, total_cost := none, status := "ongoing" }

/-- The database after the round trip. -/
def c2Stop : CsmsDB :=
  (OCPPHandler.handle_stop_transaction c2Start "CP001" (some (.jint 1)) 120).1

/-- The database after stopping transaction 99 once, at 60 s. -/
def c3Once : CsmsDB :=
  (OCPPHandler.handle_stop_transaction c2Db "CP001" (some (.jint 99)) 60).1

/-- The database after stopping the same transaction again, at 120 s. -/
def c3Twice : CsmsDB :=
  (OCPPHandler.handle_stop_transaction c3Once "CP001" (some (.jint 99)) 120).1

/-- Legacy state used for the repeated-stop runs. -/
def c3State : LegacyState :=
  { chargers := [("CP001", c2Charger)], orders := [("order_99", c2LegacyOrder)]
    heartbeats := [], statusHistory := [] }

/-- A charger whose session meter already reads 3000 Wh. -/
def c4Charger : ChargerRec :=
  { id := "CP001", vendor := none, model := none, firmware_version := none
    serial_number := none, status := "Charging", last_seen := 0
    session := { authorized := true, transaction_id := some (.jint 7)
                 order_id := some "order_7", meter := 3000 }
    charging_rate := 7, price_per_kwh := 2700 }

/-- Legacy state for the meter runs. -/
def c4State : LegacyState :=
  { chargers := [("CP001", c4Charger)], orders := [], heartbeats := [], statusHistory := [] }

/-- A MeterValues payload reporting 1500 Wh, lower than the session meter. -/
def c4Payload : Payload :=
  { emptyPayload with
    meterValue := [{ sampledValue := [{ measurand := some "Energy.Active.Import.Register"
                                        value := some (.jint 1500) }] }] }

/-- A charger in Charging state with live transaction 55. -/
def c5Charger : ChargerRec :=
  { id := "CP001", vendor := none, model := none, firmware_version := none
    serial_number := none, status := "Charging", last_seen := 0
    session := { authorized := true, transaction_id := some (.jint 55)
                 order_id := some "order_55", meter := 0 }
    charging_rate := 7, price_per_kwh := 2700 }

/-- Legacy state for the repair-path run. -/
def c5State : LegacyState :=
  { chargers := [("CP001", c5Charger)], orders := [], heartbeats := [], statusHistory := [] }

/-- A StatusNotification payload reporting Available. -/
def c5Payload : Payload := { emptyPayload with status := some "Available" }

/-- An empty legacy state. -/
def c10State : LegacyState :=
  { chargers := [], orders := [], heartbeats := [], statusHistory := [] }

/-- An empty modular database. -/
def c10Db : CsmsDB :=
  { chargers := [], transactions := [], orders := [], nextTxPk := 1 }

/-- A StartTransaction payload carrying the falsy transaction id 0. -/
def c10Payload : Payload :=
  { emptyPayload with transactionId := some (.jint 0), idTag := some "U42" }

/-! ### Helper lemmas about the stores and handler branches -/

theorem hget_hset_self {α : Type} (s : Store α) (k : String) (v : α) :
    hget (hset s k v) k = some v := by
  induction s with
  | nil => simp [hset, hget, List.find?]
  | cons p rest ih =>
    obtain ⟨k1, v1⟩ := p
    by_cases h : (k1 == k) = true
    · simp [hset, h, hget, List.find?]
    · simp only [hset, h, Bool.false_eq_true, if_false]
      simp only [hget, List.find?, h] at ih ⊢
      exact ih

theorem replaceFirst_id_of_all_false {α : Type} (p : α → Bool) (f : α → α) (l : List α)
    (h : ∀ x ∈ l, p x = false) : replaceFirst p f l = l := by
  induction l with
  | nil => rfl
  | cons x xs ih =>
    simp only [replaceFirst, h x (by simp), Bool.false_eq_true, if_false, List.cons.injEq,
      true_and]
    exact ih (fun y hy => h y (by simp [hy]))

theorem find?_replaceFirst {α : Type} (p : α → Bool) (f : α → α) (l : List α) (a : α)
    (h : l.find? p = some a) (hf : p (f a) = true) :
    (replaceFirst p f l).find? p = some (f a) := by
  induction l with
  | nil => simp [List.find?] at h
  | cons x xs ih =>
    by_cases hx : p x = true
    · rw [List.find?_cons_of_pos _ hx] at h
      injection h with h
      subst h
      simp [replaceFirst, hx, List.find?_cons_of_pos _ hf]
    · rw [List.find?_cons_of_neg _ (by simpa using hx)] at h
      simp only [replaceFirst, hx, Bool.false_eq_true, if_false]
      rw [List.find?_cons_of_neg _ (by simpa using hx)]
      exact ih h

theorem handle_stop_eq (b : Bool) (st : LegacyState) (cid : String) (pl : Payload) (now : ℚ) :
    handle_ocpp_message b st cid "StopTransaction" pl now =
      (let c0 := (hget st.chargers cid).getD (get_default_charger cid now)
       { state :=
           { st with
             orders :=
               if pyTruthyStrOpt c0.session.order_id then
                 match get_order st.orders (c0.session.order_id.getD "") with
                 | some o =>
                   if o.status == "ongoing" then
                     update_order st.orders (c0.session.order_id.getD "") now
                       (round2 ((now - o.start_time) / 60))
                       (round2 (o.charging_rate * (((now - o.start_time) / 60) / 60)))
                   else st.orders
                 | none => st.orders
               else st.orders
             chargers := save_charger b st.chargers
               { c0 with
                 last_seen := now
                 status := "Available"
                 session := { c0.session with transaction_id := none, order_id := none } } }
         response := .stop true c0.session.transaction_id "Accepted" }) := rfl

theorem handle_status_eq (b : Bool) (st : LegacyState) (cid : String) (pl : Payload) (now : ℚ) :
    handle_ocpp_message b st cid "StatusNotification" pl now =
      (let c0 := (hget st.chargers cid).getD (get_default_charger cid now)
       let new_status := pl.status.getD "Unknown"
       let session :=
         if new_status == "Available" && c0.session.transaction_id.isSome then
           { c0.session with transaction_id := none, order_id := none }
         else c0.session
       { state :=
           { st with
             chargers := save_charger b st.chargers
               { c0 with last_seen := now, status := new_status, session := session }
             statusHistory :=
               if c0.status != new_status then
                 record_status_change b st.statusHistory cid new_status c0.status now
               else st.statusHistory }
         response := .empty }) := rfl

theorem handle_start_eq (b : Bool) (st : LegacyState) (cid : String) (pl : Payload) (now : ℚ) :
    handle_ocpp_message b st cid "StartTransaction" pl now =
      (let c0 := (hget st.chargers cid).getD (get_default_charger cid now)
       let tx_id := pyOrTxId pl.transactionId now.floor
       let order_id := "order_" ++ tx_id.render
       { state :=
           { st with
             orders := create_order st.orders order_id cid (pl.idTag.getD "") (pl.idTag.getD "")
               c0.charging_rate now
             chargers := save_charger b st.chargers
               { c0 with
                 last_seen := now
                 status := "Charging"
                 session := { c0.session with
                              transaction_id := some tx_id
                              order_id := some order_id } } }
         response := .start tx_id "Accepted" }) := rfl

theorem handle_meter_eq (b : Bool) (st : LegacyState) (cid : String) (pl : Payload) (now : ℚ) :
    handle_ocpp_message b st cid "MeterValues" pl now =
      (let c0 := (hget st.chargers cid).getD (get_default_charger cid now)
       { state :=
           match extractEnergyWh pl with
           | some w =>
             { st with
               chargers := save_charger b st.chargers
                 { c0 with
                   last_seen := now
                   session := { c0.session with meter := w } } }
           | none => st
         response := .empty }) := rfl

theorem firstConnected_eq_filter_head (tm : TMState) (cid : String) (l : List TransportType) :
    firstConnected tm cid l = (l.filter (fun t => isConn tm cid t)).head? := by
  induction l with
  | nil => rfl
  | cons t ts ih =>
    by_cases h : isConn tm cid t
    · simp [firstConnected, h, List.filter]
    · simp [firstConnected, h, List.filter, ih]

theorem stop_first_run (st : LegacyState) (cid : String) (pl : Payload) (now : ℚ)
    (c0 : ChargerRec)
    (hc0 : (hget st.chargers cid).getD (get_default_charger cid now) = c0)
    (hid : c0.id = cid) :
    hget (handle_ocpp_message false st cid "StopTransaction" pl now).state.chargers cid =
      some { c0 with
             last_seen := now
             status := "Available"
             session := { c0.session with transaction_id := none, order_id := none } } ∧
    (handle_ocpp_message false st cid "StopTransaction" pl now).state.heartbeats =
      st.heartbeats ∧
    (handle_ocpp_message false st cid "StopTransaction" pl now).state.statusHistory =
      st.statusHistory ∧
    (handle_ocpp_message false st cid "StopTransaction" pl now).response =
      Response.stop true c0.session.transaction_id "Accepted" := by
  refine ⟨?_, by rw [handle_stop_eq], by rw [handle_stop_eq],
    by rw [handle_stop_eq]; simp only [hc0]⟩
  rw [handle_stop_eq]
  simp only [hc0, save_charger, Bool.false_eq_true, if_false]
  have hkey : ({ c0 with
                 last_seen := now
                 status := "Available"
                 session := { c0.session with transaction_id := none, order_id := none } }
      : ChargerRec).id = cid := hid
  rw [hkey]
  exact hget_hset_self st.chargers cid _

theorem stop_cleared_run (st : LegacyState) (cid : String) (pl : Payload) (now : ℚ)
    (c0 : ChargerRec)
    (hc0 : (hget st.chargers cid).getD (get_default_charger cid now) = c0)
    (hid : c0.id = cid)
    (hTx : c0.session.transaction_id = none)
    (hOrd : c0.session.order_id = none) :
    (handle_ocpp_message false st cid "StopTransaction" pl now).state.orders = st.orders ∧
    hget (handle_ocpp_message false st cid "StopTransaction" pl now).state.chargers cid =
      some { c0 with
             last_seen := now
             status := "Available"
             session := { c0.session with transaction_id := none, order_id := none } } ∧
    (handle_ocpp_message false st cid "StopTransaction" pl now).state.heartbeats =
      st.heartbeats ∧
    (handle_ocpp_message false st cid "StopTransaction" pl now).state.statusHistory =
      st.statusHistory ∧
    (handle_ocpp_message false st cid "StopTransaction" pl now).response =
      Response.stop true none "Accepted" := by
  refine ⟨?_, ?_, by rw [handle_stop_eq], by rw [handle_stop_eq], ?_⟩
  · rw [handle_stop_eq]
    simp only [hc0, hOrd, pyTruthyStrOpt, Bool.false_eq_true, if_false]
  · rw [handle_stop_eq]
    simp only [hc0, save_charger, Bool.false_eq_true, if_false]
    have hkey : ({ c0 with
                   last_seen := now
                   status := "Available"
                   session := { c0.session with transaction_id := none, order_id := none } }
        : ChargerRec).id = cid := hid
    rw [hkey]
    exact hget_hset_self st.chargers cid _
  · rw [handle_stop_eq]
    simp only [hc0, hTx]

/-! ### The claims -/

/-- C1 counterexample: with charger CP001 mid-transaction 99, a second
StartTransaction with id 100 is answered Accepted with transaction id 100
(there is no ConcurrentTx response shape anywhere in the code), and a second
Order record order_100 is created next to order_99. -/
theorem C1_counterexample :
    (handle_ocpp_message false c1State "CP001" "StartTransaction" c1Payload 1000).response =
      Response.start (.jint 100) "Accepted" ∧
    (handle_ocpp_message false c1State "CP001" "StartTransaction"
      c1Payload 1000).state.orders.length = 2 ∧
    c1State.orders.length = 1 ∧
    (hget (handle_ocpp_message false c1State "CP001" "StartTransaction"
      c1Payload 1000).state.orders "order_100").isSome = true := by
  refine ⟨?_, ?_, rfl, ?_⟩ <;> rfl

/-- C1 (amended): a StartTransaction received while the session already holds
a live transaction is not rejected: the legacy handler answers Accepted with
the newly allocated id, overwrites the session transactionID and orderID, and
creates a second ongoing Order record; the modular handler likewise inserts a
second ongoing Transaction row for the charger and answers Accepted. -/
theorem C1_start_during_live_transaction_accepted
    (st : LegacyState) (cid : String) (pl : Payload) (now : ℚ) (c0 : ChargerRec)
    (j : JVal) (db : CsmsDB) (idTag : String) (tid : Option JVal)
    (hc0 : (hget st.chargers cid).getD (get_default_charger cid now) = c0)
    (hid : c0.id = cid)
    (_hLive : c0.session.transaction_id = some j)
    (hOngoing : 1 ≤ (db.transactions.filter
      (fun t => t.charger_id == cid && t.status == "ongoing")).length) :
    (handle_ocpp_message false st cid "StartTransaction" pl now).response =
      Response.start (pyOrTxId pl.transactionId now.floor) "Accepted" ∧
    hget (handle_ocpp_message false st cid "StartTransaction" pl now).state.orders
        ("order_" ++ (pyOrTxId pl.transactionId now.floor).render) =
      some { id := "order_" ++ (pyOrTxId pl.transactionId now.floor).render
             charger_id := cid
             user_id := pl.idTag.getD ""
             id_tag := pl.idTag.getD ""
             charging_rate := c0.charging_rate
             start_time := now
             end_time := none
             duration_minutes := none
             energy_kwh := none
             status := "ongoing" } ∧
    hget (handle_ocpp_message false st cid "StartTransaction" pl now).state.chargers cid =
      some { c0 with
             last_seen := now
             status := "Charging"
             session := { c0.session with
                          transaction_id := some (pyOrTxId pl.transactionId now.floor)
                          order_id := some ("order_" ++ (pyOrTxId pl.transactionId now.floor).render) } } ∧
    2 ≤ ((OCPPHandler.handle_start_transaction db cid tid idTag now).1.transactions.filter
          (fun t => t.charger_id == cid && t.status == "ongoing")).length ∧
    (OCPPHandler.handle_start_transaction db cid tid idTag now).2 =
      Response.start (pyOrTxId tid now.floor) "Accepted" := by
  refine ⟨by rw [handle_start_eq], ?_, ?_, ?_, rfl⟩
  · rw [handle_start_eq]
    simp only [hc0, create_order]
    exact hget_hset_self st.orders _ _
  · rw [handle_start_eq]
    simp only [hc0, save_charger, Bool.false_eq_true, if_false]
    have hkey : ({ c0 with
                   last_seen := now
                   status := "Charging"
                   session := { c0.session with
                                transaction_id := some (pyOrTxId pl.transactionId now.floor)
                                order_id := some ("order_" ++
                                  (pyOrTxId pl.transactionId now.floor).render) } }
        : ChargerRec).id = cid := hid
    rw [hkey]
    exact hget_hset_self st.chargers cid _
  · simp only [OCPPHandler.handle_start_transaction, List.filter_append, List.length_append]
    have hone : (List.filter (fun t => t.charger_id == cid && t.status == "ongoing")
        [({ id := db.nextTxPk, charger_id := cid, transaction_id := pyOrTxId tid now.floor
            id_tag := idTag, user_id := idTag, start_time := now, end_time := none
            energy_kwh := none, duration_minutes := none
            charging_rate := (((db.chargers.find? (fun c => c.id == cid)).getD
              { id := cid, vendor := none, model := none, status := "Charging"
                last_seen := now, charging_rate := none, price_per_kwh := none })).charging_rate
            price_per_kwh := (((db.chargers.find? (fun c => c.id == cid)).getD
              { id := cid, vendor := none, model := none, status := "Charging"
                last_seen := now, charging_rate := none, price_per_kwh := none })).price_per_kwh
            total_cost := none, status := "ongoing" } : CTransaction)]).length = 1 := by
      simp [List.filter]
    omega

/-- C1 witness: the amended theorem applied to the concrete mid-transaction
state. -/
theorem C1_witness :
    (handle_ocpp_message false c1State "CP001" "StartTransaction" c1Payload 1000).response =
      Response.start (pyOrTxId c1Payload.transactionId (1000 : ℚ).floor) "Accepted" :=
  (C1_start_during_live_transaction_accepted c1State "CP001" c1Payload 1000 c1Charger
    (.jint 99) c1Db "U42" none rfl rfl rfl (by decide)).1

/-- C2 counterexample: a full StartTransaction then StopTransaction round trip
on the modular handler (rate 7 kW, tariff 2700, 120 s of charging) completes
the transaction with energyKWh 0.23, but the claimed
totalCost = energyKWh × priceSnapshot (0.23 × 2700 = 621) is never stored,
and the order is not marked completed at all: the start handler stored a null
transaction foreign key on it, so the stop handler's order lookup finds
nothing and the order stays ongoing with null derived fields. -/
theorem C2_counterexample :
    c2Stop.transactions.map CTransaction.total_cost = [none] ∧
    c2Stop.orders.map COrder.total_cost = [none] ∧
    c2Stop.transactions.map CTransaction.energy_kwh = [some (23 / 100)] ∧
    c2Stop.transactions.map CTransaction.status = ["completed"] ∧
    c2Stop.transactions.map CTransaction.total_cost ≠ [some (23 / 100 * 2700)] ∧
    c2Stop.orders.map COrder.transaction_pk = [none] ∧
    c2Stop.orders.map COrder.status = ["ongoing"] ∧
    c2Stop.orders.map COrder.end_time = [none] ∧
    c2Stop.orders.map COrder.duration_minutes = [none] := by
  refine ⟨rfl, rfl, by with_unfolding_all rfl, rfl, by decide, rfl, rfl, rfl, rfl⟩

/-- C2 (amended): a StopTransaction that finds the ongoing transaction stamps
endTime, stores durationMinutes = (endTime − startTime)/60 and energyKWh =
chargingRate × durationMinutes/60 (each rounded to 2 decimals), marks the
transaction completed, sets the charger Available, and answers stopped = true
with Accepted; the legacy handler completes its order record the same way and
clears the session. totalCost is not computed and the total_cost columns keep
their prior (null) value. The modular handler does not complete the order:
the start handler stores a null transaction foreign key on every order it
creates, so over such orders the stop handler's lookup matches nothing and
the orders table is left unchanged. -/
theorem C2_stop_derivations
    (db : CsmsDB) (cid : String) (v : JVal) (now : ℚ) (t : CTransaction) (r : ℚ)
    (c : CCharger)
    (hT : db.transactions.find?
      (fun x : CTransaction => x.charger_id == cid && x.transaction_id == v) = some t)
    (hr : t.charging_rate = some r) (hrne : r ≠ 0)
    (hC : db.chargers.find? (fun x => x.id == cid) = some c)
    (hOrders : ∀ o ∈ db.orders, o.transaction_pk = none)
    (db0 : CsmsDB) (cid0 : String) (tid0 : Option JVal) (idTag0 : String) (now0 : ℚ)
    (st : LegacyState) (cid2 : String) (pl : Payload) (now2 : ℚ) (c0 : ChargerRec)
    (oid : String) (lo : OrderRec)
    (hc0 : (hget st.chargers cid2).getD (get_default_charger cid2 now2) = c0)
    (hid : c0.id = cid2)
    (hOid : c0.session.order_id = some oid) (hOidNe : oid ≠ "")
    (hLO : hget st.orders oid = some lo) (hLOst : lo.status = "ongoing") :
    (OCPPHandler.handle_stop_transaction db cid (some v) now).1.transactions.find?
        (fun x : CTransaction => x.charger_id == cid && x.transaction_id == v) =
      some { t with
             end_time := some now
             status := "completed"
             duration_minutes := some (round2 ((now - t.start_time) / 60))
             energy_kwh := some (round2 (r * (((now - t.start_time) / 60) / 60))) } ∧
    (OCPPHandler.handle_stop_transaction db cid (some v) now).1.orders = db.orders ∧
    (OCPPHandler.handle_stop_transaction db cid (some v) now).1.chargers.find?
        (fun x => x.id == cid) =
      some { c with status := "Available", last_seen := now } ∧
    (OCPPHandler.handle_stop_transaction db cid (some v) now).2 =
      Response.stop true (some v) "Accepted" ∧
    ((OCPPHandler.handle_start_transaction db0 cid0 tid0 idTag0 now0).1.orders.getLast?).map
      COrder.transaction_pk = some none ∧
    ((OCPPHandler.handle_start_transaction db0 cid0 tid0 idTag0 now0).1.orders.getLast?).map
      COrder.status = some "ongoing" ∧
    hget (handle_ocpp_message false st cid2 "StopTransaction" pl now2).state.orders oid =
      some { lo with
             end_time := some now2
             duration_minutes := some (round2 ((now2 - lo.start_time) / 60))
             energy_kwh := some (round2 (lo.charging_rate * (((now2 - lo.start_time) / 60) / 60)))
             status := "completed" } ∧
    hget (handle_ocpp_message false st cid2 "StopTransaction" pl now2).state.chargers cid2 =
      some { c0 with
             last_seen := now2
             status := "Available"
             session := { c0.session with transaction_id := none, order_id := none } } ∧
    (handle_ocpp_message false st cid2 "StopTransaction" pl now2).response =
      Response.stop true c0.session.transaction_id "Accepted" := by
  have hrne1 : (r != 0) = true := by simp [hrne]
  have hpred := List.find?_some hT
  have hOidTruthy : pyTruthyStrOpt (some oid) = true := by simp [pyTruthyStrOpt, hOidNe]
  refine ⟨?_, ?_, ?_, ?_, ?_, ?_, ?_, ?_, ?_⟩
  · simp only [OCPPHandler.handle_stop_transaction, hT, hr, hrne1, if_true]
    exact find?_replaceFirst _ _ db.transactions t hT hpred
  · simp only [OCPPHandler.handle_stop_transaction, hT, hr, hrne1, if_true]
    exact replaceFirst_id_of_all_false _ _ db.orders
      (fun o ho => by simp [hOrders o ho])
  · have h3 := find?_replaceFirst (fun x : CCharger => x.id == cid)
      (fun x => { x with status := "Available", last_seen := now }) db.chargers c hC
      (by simpa using List.find?_some hC)
    simp only [OCPPHandler.handle_stop_transaction, hT]
    exact h3
  · rfl
  · simp only [OCPPHandler.handle_start_transaction, List.getLast?_concat]
    rfl
  · simp only [OCPPHandler.handle_start_transaction, List.getLast?_concat]
    rfl
  · rw [handle_stop_eq]
    simp only [hc0, hOid, hOidTruthy, if_true, get_order, Option.getD_some, hLO, hLOst,
      beq_self_eq_true, update_order, save_charger, Bool.false_eq_true, if_false]
    exact hget_hset_self st.orders oid _
  · rw [handle_stop_eq]
    simp only [hc0, save_charger, Bool.false_eq_true, if_false]
    have hkey : ({ c0 with
                   last_seen := now2
                   status := "Available"
                   session := { c0.session with transaction_id := none, order_id := none } }
        : ChargerRec).id = cid2 := hid
    rw [hkey]
    exact hget_hset_self st.chargers cid2 _
  · rw [handle_stop_eq]
    simp only [hc0]

/-- C2 witness: the amended theorem applied to the program-produced state
after the concrete StartTransaction, stopping transaction 1 at 120 s: the
orders table is untouched by the stop. -/
theorem C2_witness :
    (OCPPHandler.handle_stop_transaction c2Start "CP001" (some (.jint 1)) 120).1.orders =
      c2Start.orders :=
  (C2_stop_derivations c2Start "CP001" (.jint 1) 120 c2StartTx 7 c2CCharger rfl rfl
    (by norm_num) rfl (by decide) c2Db0 "CP001" (some (.jint 1)) "U42" 0
    c2State "CP001" emptyPayload 120 c2Charger "order_99" c2LegacyOrder
    rfl rfl rfl (by decide) rfl rfl).2.1

/-- C3 counterexample: on the modular handler, stopping transaction 99 at
60 s and then again at 120 s re-stamps endTime to the later time (and with it
the derived fields), so the second call is not a no-op and the final state
differs from a single stop; both calls do return the success response. -/
theorem C3_counterexample :
    c3Once.transactions.map CTransaction.end_time = [some 60] ∧
    c3Twice.transactions.map CTransaction.end_time = [some 120] ∧
    c3Twice ≠ c3Once ∧
    (OCPPHandler.handle_stop_transaction c3Once "CP001" (some (.jint 99)) 120).2 =
      Response.stop true (some (.jint 99)) "Accepted" := by
  refine ⟨rfl, rfl, by decide, rfl⟩

/-- C3 (amended): on the legacy unified handler a repeated StopTransaction is
idempotent: the second call leaves the orders store and both history streams
exactly as the first call left them, only refreshes the charger record
last-seen time, and both calls return stopped = true with Accepted (the
modular handler instead re-stamps the transaction at the later stop time). -/
theorem C3_stop_idempotent_legacy
    (st : LegacyState) (cid : String) (pl : Payload) (now1 now2 : ℚ) (c0 : ChargerRec)
    (hc0 : (hget st.chargers cid).getD (get_default_charger cid now1) = c0)
    (hid : c0.id = cid) :
    (handle_ocpp_message false (handle_ocpp_message false st cid "StopTransaction" pl now1).state
        cid "StopTransaction" pl now2).state.orders =
      (handle_ocpp_message false st cid "StopTransaction" pl now1).state.orders ∧
    (handle_ocpp_message false (handle_ocpp_message false st cid "StopTransaction" pl now1).state
        cid "StopTransaction" pl now2).state.heartbeats =
      (handle_ocpp_message false st cid "StopTransaction" pl now1).state.heartbeats ∧
    (handle_ocpp_message false (handle_ocpp_message false st cid "StopTransaction" pl now1).state
        cid "StopTransaction" pl now2).state.statusHistory =
      (handle_ocpp_message false st cid "StopTransaction" pl now1).state.statusHistory ∧
    hget (handle_ocpp_message false
        (handle_ocpp_message false st cid "StopTransaction" pl now1).state
        cid "StopTransaction" pl now2).state.chargers cid =
      (hget (handle_ocpp_message false st cid "StopTransaction" pl now1).state.chargers cid).map
        (fun c => { c with last_seen := now2 }) ∧
    (handle_ocpp_message false st cid "StopTransaction" pl now1).response =
      Response.stop true c0.session.transaction_id "Accepted" ∧
    (handle_ocpp_message false (handle_ocpp_message false st cid "StopTransaction" pl now1).state
        cid "StopTransaction" pl now2).response =
      Response.stop true none "Accepted" := by
  obtain ⟨hC1, hHb1, hSh1, hResp1⟩ := stop_first_run st cid pl now1 c0 hc0 hid
  have hc1 : (hget (handle_ocpp_message false st cid "StopTransaction" pl now1).state.chargers
      cid).getD (get_default_charger cid now2) =
      { c0 with
        last_seen := now1
        status := "Available"
        session := { c0.session with transaction_id := none, order_id := none } } := by
    rw [hC1]
    rfl
  obtain ⟨hO2, hC2, hHb2, hSh2, hResp2⟩ :=
    stop_cleared_run (handle_ocpp_message false st cid "StopTransaction" pl now1).state cid pl
      now2 _ hc1 hid rfl rfl
  refine ⟨hO2, hHb2, hSh2, ?_, hResp1, hResp2⟩
  rw [hC1]
  exact hC2

/-- C3 witness: the amended theorem applied to the concrete mid-transaction
state, stopping at 60 s and again at 120 s. -/
theorem C3_witness :
    (handle_ocpp_message false (handle_ocpp_message false c3State "CP001" "StopTransaction"
        emptyPayload 60).state "CP001" "StopTransaction" emptyPayload 120).state.orders =
      (handle_ocpp_message false c3State "CP001" "StopTransaction" emptyPayload 60).state.orders :=
  (C3_stop_idempotent_legacy c3State "CP001" emptyPayload 60 120 c2Charger rfl rfl).1

/-- C4 counterexample: with the session meter at 3000 Wh, a MeterValues
message whose Energy.Active.Import.Register value is 1500 Wh overwrites the
session meter with the lower value instead of rejecting it. -/
theorem C4_counterexample :
    (hget (handle_ocpp_message false c4State "CP001" "MeterValues" c4Payload 10).state.chargers
      "CP001").map (fun c => c.session.meter) = some 1500 ∧
    c4Charger.session.meter = 3000 ∧
    (1500 : Int) < 3000 := by
  refine ⟨rfl, rfl, by norm_num⟩

/-- C4 (amended): the MeterValues handler stores whatever
Energy.Active.Import.Register value parses, with no comparison against the
current session meter, so the session meter is not monotonic. -/
theorem C4_meter_overwritten
    (st : LegacyState) (cid : String) (pl : Payload) (now : ℚ) (w : Int) (c0 : ChargerRec)
    (hc0 : (hget st.chargers cid).getD (get_default_charger cid now) = c0)
    (hid : c0.id = cid)
    (hW : extractEnergyWh pl = some w) :
    hget (handle_ocpp_message false st cid "MeterValues" pl now).state.chargers cid =
      some { c0 with last_seen := now, session := { c0.session with meter := w } } ∧
    (handle_ocpp_message false st cid "MeterValues" pl now).response = Response.empty := by
  rw [handle_meter_eq]
  simp only [hc0, hW, save_charger, Bool.false_eq_true, if_false]
  refine ⟨?_, trivial⟩
  have hkey : ({ c0 with
                 last_seen := now
                 session := { c0.session with meter := w } } : ChargerRec).id = cid := hid
  rw [hkey]
  exact hget_hset_self st.chargers cid _

/-- C4 witness: the amended theorem applied to the concrete lower reading. -/
theorem C4_witness :
    hget (handle_ocpp_message false c4State "CP001" "MeterValues" c4Payload 10).state.chargers
        "CP001" =
      some { c4Charger with
             last_seen := 10
             session := { c4Charger.session with meter := 1500 } } :=
  (C4_meter_overwritten c4State "CP001" c4Payload 10 1500 c4Charger rfl rfl rfl).1

/-- C5: a StatusNotification reporting Available while the session holds a
live transactionID clears both the session transactionID and orderID, sets
the charger status to Available, returns the empty response, and leaves the
orders ledger untouched (the ongoing order stays in its prior state). -/
theorem C5_available_clears_session
    (st : LegacyState) (cid : String) (pl : Payload) (now : ℚ) (j : JVal)
    (c0 : ChargerRec)
    (hc0 : (hget st.chargers cid).getD (get_default_charger cid now) = c0)
    (hid : c0.id = cid)
    (hStatus : pl.status = some "Available")
    (hLive : c0.session.transaction_id = some j) :
    (handle_ocpp_message false st cid "StatusNotification" pl now).state.orders = st.orders ∧
    (handle_ocpp_message false st cid "StatusNotification" pl now).response = Response.empty ∧
    hget (handle_ocpp_message false st cid "StatusNotification" pl now).state.chargers cid =
      some { c0 with
             last_seen := now
             status := "Available"
             session := { c0.session with transaction_id := none, order_id := none } } := by
  rw [handle_status_eq]
  simp only [hc0, hStatus, Option.getD_some, hLive, Option.isSome_some, Bool.and_true,
    beq_self_eq_true, if_true, save_charger, Bool.false_eq_true, if_false]
  refine ⟨trivial, trivial, ?_⟩
  have hkey : ({ c0 with
                 last_seen := now
                 status := "Available"
                 session := { c0.session with transaction_id := none, order_id := none } }
      : ChargerRec).id = cid := hid
  rw [hkey]
  exact hget_hset_self st.chargers cid _

/-- C5 witness: the theorem applied to the concrete Charging state holding
transaction 55. -/
theorem C5_witness :
    hget (handle_ocpp_message false c5State "CP001" "StatusNotification"
        c5Payload 10).state.chargers "CP001" =
      some { c5Charger with
             last_seen := 10
             status := "Available"
             session := { c5Charger.session with transaction_id := none, order_id := none } } :=
  (C5_available_clears_session c5State "CP001" c5Payload 10 (.jint 55) c5Charger
    rfl rfl rfl rfl).2.2

/-- C6: the transport manager send selection equals the described policy: the
preferred transport when enabled and connected, otherwise the first connected
of MQTT, WebSocket, HTTP in that order, otherwise HTTP when enabled (queued
store-and-forward), otherwise failure. -/
theorem C6_send_message_selection (tm : TMState) (cid : String)
    (pref : Option TransportType) :
    TransportManager.send_message tm cid pref = send_message_described tm cid pref := by
  have hauto : TransportManager.send_auto tm cid =
      (match (transport_priority.filter (fun t => isConn tm cid t)).head? with
       | some t => SendResult.sent t
       | none =>
         if (tm.adapters .http).isSome then SendResult.sent .http else SendResult.failed) := by
    unfold TransportManager.send_auto
    rw [firstConnected_eq_filter_head]
    rcases (transport_priority.filter (fun t => isConn tm cid t)).head? with _ | t
    · rcases h : tm.adapters .http with _ | a <;> simp [h]
    · rfl
  rcases pref with _ | p
  · simp [TransportManager.send_message, send_message_described, hauto]
  · by_cases hc : isConn tm cid p
    · have hen : (tm.adapters p).isSome = true := by
        unfold isConn at hc
        rcases h : tm.adapters p with _ | a
        · rw [h] at hc
          simp at hc
        · simp
      simp [TransportManager.send_message, send_message_described, hc, hen]
    · simp [TransportManager.send_message, send_message_described, hc, hauto]

/-- C7: the code publishes CSMS-initiated outbound messages on the requests
topic, not the responses topic its own docstring and the claim require; the
inbound handler result does go to the responses topic, and the outbound topic
is one the adapter itself routes as a charger request. -/
theorem C7_outbound_published_on_requests_topic :
    (MQTTAdapter.send_message "CP001").topic = "ocpp/CP001/requests" ∧
    (MQTTAdapter.send_message "CP001").topic ≠ "ocpp/CP001/responses" ∧
    (MQTTAdapter.handle_message_publish "CP001").topic = "ocpp/CP001/responses" ∧
    MQTTAdapter.on_message_route (MQTTAdapter.send_message "CP001").topic = some "CP001" := by
  refine ⟨rfl, by decide, rfl, by decide⟩

/-- C8: with a previous heartbeat the recorded interval is the elapsed time
and the health band is normal when the interval is at most 35 s, warning when
it is above 35 s and at most 60 s, abnormal above 60 s; with no previous
heartbeat the band is normal and no interval is stored. -/
theorem C8_heartbeat_bands (cid : String) (prev now i : ℚ) (hi : i = now - prev) :
    (record_heartbeat cid (some prev) now).interval_seconds = some i ∧
    (i ≤ 35 → (record_heartbeat cid (some prev) now).health_status = "normal") ∧
    (35 < i → i ≤ 60 → (record_heartbeat cid (some prev) now).health_status = "warning") ∧
    (60 < i → (record_heartbeat cid (some prev) now).health_status = "abnormal") ∧
    (record_heartbeat cid none now).health_status = "normal" ∧
    (record_heartbeat cid none now).interval_seconds = none := by
  subst hi
  refine ⟨rfl, ?_, ?_, ?_, rfl, rfl⟩
  · intro h
    simp only [record_heartbeat]
    rw [if_pos h]
  · intro h1 h2
    simp only [record_heartbeat]
    rw [if_neg (by linarith), if_pos h2]
  · intro h
    simp only [record_heartbeat]
    rw [if_neg (by linarith), if_neg (by linarith)]

/-- C8 witness: the theorem applied to a heartbeat 30 s after the previous
one. -/
theorem C8_witness :
    (record_heartbeat "CP001" (some 0) 30).health_status = "normal" ∧
    (record_heartbeat "CP001" (some 0) 30).interval_seconds = some 30 :=
  ⟨(C8_heartbeat_bands "CP001" 0 30 30 (by norm_num)).2.1 (by norm_num),
   (C8_heartbeat_bands "CP001" 0 30 30 (by norm_num)).1⟩

/-- C9: for every inbound message, the protocol response is the same whether
the persistence write succeeds or fails: every store write is guarded by a
broad except in the source, the failure is only logged, and the response is
built independently. -/
theorem C9_response_independent_of_persistence (st : LegacyState) (cid action : String)
    (pl : Payload) (now : ℚ) (b : Bool) :
    (handle_ocpp_message b st cid action pl now).response =
      (handle_ocpp_message false st cid action pl now).response := by
  by_cases h1 : action = "BootNotification"
  · subst h1; rfl
  by_cases h2 : action = "Heartbeat"
  · subst h2; rfl
  by_cases h3 : action = "StatusNotification"
  · subst h3; rfl
  by_cases h4 : action = "Authorize"
  · subst h4; rfl
  by_cases h5 : action = "StartTransaction"
  · subst h5; rfl
  by_cases h6 : action = "MeterValues"
  · subst h6; rfl
  by_cases h7 : action = "StopTransaction"
  · subst h7; rfl
  by_cases h8 : action = "FirmwareStatusNotification"
  · subst h8; rfl
  by_cases h9 : action = "DiagnosticsStatusNotification"
  · subst h9; rfl
  by_cases h10 : action = "DataTransfer"
  · subst h10; rfl
  unfold handle_ocpp_message
  rw [show (action == "BootNotification") = false by simpa using h1,
      show (action == "Heartbeat") = false by simpa using h2,
      show (action == "StatusNotification") = false by simpa using h3,
      show (action == "Authorize") = false by simpa using h4,
      show (action == "StartTransaction") = false by simpa using h5,
      show (action == "MeterValues") = false by simpa using h6,
      show (action == "StopTransaction") = false by simpa using h7,
      show (action == "FirmwareStatusNotification") = false by simpa using h8,
      show (action == "DiagnosticsStatusNotification") = false by simpa using h9,
      show (action == "DataTransfer") = false by simpa using h10]
  rfl

/-- C10: a falsy supplied transactionId (0, null, empty string or absent) is
discarded by both StartTransaction handlers: the allocated id is the positive
epoch-seconds clock value, so the response id differs from the supplied 0. -/
theorem C10_falsy_transaction_id_replaced (st : LegacyState) (cid : String) (pl : Payload)
    (now : ℚ) (b : Bool) (j : JVal) (db : CsmsDB) (idTag : String)
    (hj : pl.transactionId = some j) (hfalsy : j.truthy = false) (hpos : 0 < now.floor) :
    (handle_ocpp_message b st cid "StartTransaction" pl now).response =
      Response.start (.jint now.floor) "Accepted" ∧
    (OCPPHandler.handle_start_transaction db cid pl.transactionId idTag now).2 =
      Response.start (.jint now.floor) "Accepted" ∧
    pyOrTxId pl.transactionId now.floor = .jint now.floor ∧
    (JVal.jint now.floor) ≠ .jint 0 := by
  have hpy : pyOrTxId pl.transactionId now.floor = .jint now.floor := by
    rw [hj]
    simp [pyOrTxId, hfalsy]
  refine ⟨?_, ?_, hpy, ?_⟩
  · rw [handle_start_eq]
    simp only [hpy]
  · simp only [OCPPHandler.handle_start_transaction, hpy]
  · intro h
    injection h with h
    omega

/-- C10 witness: the theorem applied to a supplied transactionId of 0 at
clock time 1000. -/
theorem C10_witness :
    (handle_ocpp_message false c10State "CP001" "StartTransaction" c10Payload 1000).response =
      Response.start (.jint (1000 : ℚ).floor) "Accepted" :=
  (C10_falsy_transaction_id_replaced c10State "CP001" c10Payload 1000 false (.jint 0)
    c10Db "U42" rfl rfl (by decide)).1

end CSMS
